import Mathlib

/-! Shallow embedding of the gtk-future-executor crate (src/promise.rs and
src/executor.rs) and verification of its specification claims.

The crate targets futures 0.1: a future's `poll` returns
`Result<Async<Item>, Error>` where `Async` is `Ready(v)` or `NotReady`.
Waiting tasks are `futures::task::Task` handles; here a task handle is
modelled as a natural number, and `task.notify()` calls are recorded as
the list of task handles notified by an operation, in call order.
-/

namespace GtkFutureExecutor

/-- Rust `Result<T, E>`. -/
inductive RResult (T E : Type) where
  | Ok : T → RResult T E
  | Err : E → RResult T E
deriving DecidableEq, Repr

/-- futures 0.1 `Async<T>`: either a finished value or "not ready yet". -/
inductive Async (T : Type) where
  | Ready : T → Async T
  | NotReady : Async T
deriving DecidableEq, Repr

/-- futures 0.1 `Poll<T, E> = Result<Async<T>, E>`. -/
abbrev Poll (T E : Type) := RResult (Async T) E

/-- Model of `futures::task::Task`: an opaque wake handle, identified by a number. -/
abbrev Task := Nat

/-! Promise model (src/promise.rs).

The Rust `Promise<T, E>` is an `Arc<Mutex<PromiseBackend<T, E>>>`; all clones
share one backend.  Each of `resolve`, `reject` and `poll` runs entirely under
the backend's lock, so each is one atomic step on the backend state; they are
embedded as pure state transformers on `PromiseBackend`. -/

/-- State behind the `Promise` mutex: `result: Option<Result<T, E>>` and
`waiting_tasks: Vec<futures::task::Task>`. -/
structure PromiseBackend (T E : Type) where
  result : Option (RResult T E)
  waiting_tasks : List Task
deriving DecidableEq, Repr

/-- Constructor `Promise::new()`: empty cell, no waiters. -/
def Promise.new (T E : Type) : PromiseBackend T E :=
  { result := none, waiting_tasks := [] }

/-- Method `Promise::resolve(result)`: under the lock, set `result = Some(Ok(v))`,
notify every task in `waiting_tasks` (in order), then clear `waiting_tasks`.
Returns the new state together with the list of task handles notified. -/
def Promise.resolve (b : PromiseBackend T E) (v : T) :
    PromiseBackend T E × List Task :=
  ({ result := some (RResult.Ok v), waiting_tasks := [] }, b.waiting_tasks)

/-- Method `Promise::reject(error)`: under the lock, set `result = Some(Err(e))`,
notify every task in `waiting_tasks` (in order), then clear `waiting_tasks`.
Returns the new state together with the list of task handles notified. -/
def Promise.reject (b : PromiseBackend T E) (e : E) :
    PromiseBackend T E × List Task :=
  ({ result := some (RResult.Err e), waiting_tasks := [] }, b.waiting_tasks)

/-- Future implementation `<Promise as Future>::poll`: under the lock, if a result is recorded, take
it (leaving `None` behind) and return `Ok(Async::Ready(v))` or `Err(e)`;
otherwise push the current task onto `waiting_tasks` and return
`Ok(Async::NotReady)`.  `current` models `futures::task::current()`. -/
def Promise.poll (b : PromiseBackend T E) (current : Task) :
    PromiseBackend T E × Poll T E :=
  match b.result with
  | some r =>
    ({ b with result := none },
      match r with
      | RResult.Ok v => RResult.Ok (Async.Ready v)
      | RResult.Err e => RResult.Err e)
  | none =>
    ({ b with waiting_tasks := b.waiting_tasks ++ [current] },
      RResult.Ok Async.NotReady)

/-! Executor model (src/executor.rs).

The structure `GtkEventLoopAsyncExecutorBackend` holds `next_id: AtomicUsize` and
`spawns: RefCell<HashMap<usize, Spawn<BoxUnitFuture>>>`; all clones of the
executor share one backend through an `Arc`.  A spawned
`futures::executor::Spawn<BoxUnitFuture>` is opaque: polling it yields a
`Poll<(), ()>` and mutates it.  It is embedded as a value of an abstract type
`F` together with a poll function `pollF : F → Poll Unit Unit × F` giving the
poll outcome and the advanced state.

`GtkEventLoopAsyncExecutorNotifier::notify(id)` calls
`glib::source::idle_add`, whose documented behaviour (an external
collaborator) is to queue the closure — here `invoke(id)` — to run once,
later, on the Gtk main thread.  The glib idle queue is modelled as the list
`idle_queue` of task ids whose `invoke` has been scheduled, in schedule
order. -/

/-- Number of values of `usize` on the 64-bit targets the crate runs on:
`AtomicUsize::fetch_add(1, SeqCst)` wraps around modulo this. -/
def usizeSize : Nat := 2 ^ 64

/-- Combined state: the `GtkEventLoopAsyncExecutorBackend` fields `next_id`
and `spawns` (the `HashMap` as an association list with unique keys), plus
the external glib idle-callback queue.  The invariant `next_id < usizeSize`
holds in every reachable state but is carried as a hypothesis rather than
baked into the type. -/
structure ExecutorState (F : Type) where
  next_id : Nat
  spawns : List (Nat × F)
  idle_queue : List Nat
deriving DecidableEq, Repr

/-- HashMap removal: drop the entry with the given key. -/
def removeKey {F : Type} (m : List (Nat × F)) (id : Nat) : List (Nat × F) :=
  m.filter (fun p => p.1 != id)

/-- HashMap insertion: bind `id` to `f`, replacing any previous binding. -/
def insertKey {F : Type} (m : List (Nat × F)) (id : Nat) (f : F) : List (Nat × F) :=
  (id, f) :: removeKey m id

/-- GtkEventLoopAsyncExecutorNotifier::notify(id): `glib::source::idle_add`
schedules `invoke(id)` to run once, later, on the main thread. -/
def GtkEventLoopAsyncExecutor.notify {F : Type} (s : ExecutorState F) (id : Nat) :
    ExecutorState F :=
  { s with idle_queue := s.idle_queue ++ [id] }

/-- GtkEventLoopAsyncExecutor::spawn(f): `next_id.fetch_add(1, SeqCst)`
returns the old counter value as the fresh id and stores the incremented
value, wrapping modulo `usizeSize` on overflow as `AtomicUsize` does; wrap
`f` via `futures::executor::spawn` (the resumable-poll adapter, identity in
this model), insert it into `spawns`, then `notify(id)`.  Returns the new
state and the id assigned. -/
def GtkEventLoopAsyncExecutor.spawn {F : Type} (s : ExecutorState F) (f : F) :
    ExecutorState F × Nat :=
  let id := s.next_id
  let s1 : ExecutorState F :=
    { s with next_id := (s.next_id + 1) % usizeSize, spawns := insertKey s.spawns id f }
  (GtkEventLoopAsyncExecutor.notify s1 id, id)

/-- Log lines the executor can emit via `eprintln!`. -/
inductive LogEvent where
  | noLog : LogEvent
  | nonExistingSpawn : Nat → LogEvent
  | futureError : Nat → LogEvent
deriving DecidableEq, Repr

/-- GtkEventLoopAsyncExecutor::invoke(id): remove the slot for `id` from
`spawns` (in the source, `HashMap::remove` both looks up and deletes; on a
missing key it returns `None` and leaves the map unchanged).  If no slot
exists, log "Attempted to invoke non-existing spawn" and do nothing else.
Otherwise poll the future once: on `Ok(Ready(_))` discard the slot; on
`Ok(NotReady)` reinsert the advanced state under the same id; on `Err(_)`
discard the slot and log "Spawned future returned error". -/
def GtkEventLoopAsyncExecutor.invoke {F : Type} (pollF : F → Poll Unit Unit × F)
    (s : ExecutorState F) (id : Nat) : ExecutorState F × LogEvent :=
  match s.spawns.lookup id with
  | none => (s, LogEvent.nonExistingSpawn id)
  | some f =>
    let spawns1 := removeKey s.spawns id
    match pollF f with
    | (RResult.Ok (Async.Ready _), _) =>
      ({ s with spawns := spawns1 }, LogEvent.noLog)
    | (RResult.Ok Async.NotReady, f2) =>
      ({ s with spawns := insertKey spawns1 id f2 }, LogEvent.noLog)
    | (RResult.Err _, _) =>
      ({ s with spawns := spawns1 }, LogEvent.futureError id)

/-- GtkEventLoopAsyncExecutor::new(): asserts
`gtk::is_initialized_main_thread()` (an external collaborator; its result is
the parameter `gtk_ready`), panicking when it is false; otherwise yields a
backend with the counter at 0 and an empty table (and nothing scheduled). -/
def GtkEventLoopAsyncExecutor.new (F : Type) (gtk_ready : Bool) :
    Except String (ExecutorState F) :=
  if gtk_ready then
    Except.ok { next_id := 0, spawns := [], idle_queue := [] }
  else
    Except.error ("GtkEventLoopAsyncExecutor::new() may only be called on Gtk+ main thread")

/-- Sequential submissions: spawn each future in order through the shared
backend, collecting the assigned handles. -/
def GtkEventLoopAsyncExecutor.spawnAll {F : Type} (s : ExecutorState F) :
    List F → ExecutorState F × List Nat
  | [] => (s, [])
  | f :: fs =>
    let p := GtkEventLoopAsyncExecutor.spawn s f
    let q := GtkEventLoopAsyncExecutor.spawnAll p.1 fs
    (q.1, p.2 :: q.2)

end GtkFutureExecutor

namespace GtkFutureExecutor

/-- C1: after `resolve(v)` completes, the first subsequent poll returns
`Ready v` (after `reject(e)`, the failure `e`), and that first poll consumes
the value, so a second poll after the consumption does not again yield `v`
(it reports not-ready instead). -/
theorem c1_settle_then_first_poll {T E : Type} (b : PromiseBackend T E)
    (v : T) (e : E) (t1 t2 t3 : Task) :
    (Promise.poll (Promise.resolve b v).1 t1).2 = RResult.Ok (Async.Ready v) ∧
    (Promise.poll (Promise.poll (Promise.resolve b v).1 t1).1 t2).2 =
      RResult.Ok Async.NotReady ∧
    (Promise.poll (Promise.reject b e).1 t3).2 = RResult.Err e := by
  refine ⟨rfl, ?_, rfl⟩
  simp [Promise.resolve, Promise.poll]

/-- C2: on a not-yet-settled cell, `resolve(v)` records `Ok v` (and `reject(e)`
records `Err e`), notifies exactly the currently registered waiting tasks, and
leaves the waiter list empty. -/
theorem c2_settle_notifies_and_clears {T E : Type} (b : PromiseBackend T E)
    (v : T) (e : E) (_h : b.result = none) :
    (Promise.resolve b v).1.result = some (RResult.Ok v) ∧
    (Promise.resolve b v).2 = b.waiting_tasks ∧
    (Promise.resolve b v).1.waiting_tasks = [] ∧
    (Promise.reject b e).1.result = some (RResult.Err e) ∧
    (Promise.reject b e).2 = b.waiting_tasks ∧
    (Promise.reject b e).1.waiting_tasks = [] :=
  ⟨rfl, rfl, rfl, rfl, rfl, rfl⟩

/-- Witness for C2 at a concrete unsettled cell with two waiters. -/
theorem c2_settle_notifies_and_clears_witness :
    let b : PromiseBackend Nat Nat := { result := none, waiting_tasks := [3, 5] }
    (Promise.resolve b 1).1.result = some (RResult.Ok 1) ∧
    (Promise.resolve b 1).2 = b.waiting_tasks ∧
    (Promise.resolve b 1).1.waiting_tasks = [] ∧
    (Promise.reject b 2).1.result = some (RResult.Err 2) ∧
    (Promise.reject b 2).2 = b.waiting_tasks ∧
    (Promise.reject b 2).1.waiting_tasks = [] :=
  c2_settle_notifies_and_clears { result := none, waiting_tasks := [3, 5] } 1 2 rfl

/-- C4 counterexample: the claim "once settled and not yet consumed, no
subsequent resolve or reject call changes the stored outcome" fails on the
code: on a cell settled with `Ok 0` and not consumed, `reject(1)` overwrites
the stored outcome with `Err 1`. -/
theorem c4_immutability_cex :
    let b : PromiseBackend Nat Nat := { result := some (RResult.Ok 0), waiting_tasks := [] }
    b.result = some (RResult.Ok 0) ∧
    (Promise.reject b 1).1.result ≠ b.result := by
  exact ⟨rfl, by decide⟩

/-- C4 amended: `resolve(v)` and `reject(e)` unconditionally store `Ok v`
(resp. `Err e`), even over an already recorded outcome; immutability of a
settled outcome is only a documented caller contract (settle at most once),
not enforced by the code. -/
theorem c4_settle_overwrites {T E : Type} (b : PromiseBackend T E) (v : T) (e : E) :
    (Promise.resolve b v).1.result = some (RResult.Ok v) ∧
    (Promise.reject b e).1.result = some (RResult.Err e) :=
  ⟨rfl, rfl⟩

/-- C9: no lost wakeup.  Each of `poll` and `resolve` runs under the cell's
mutex, so any interleaving of a task's poll of a not-yet-settled cell with a
concurrent `resolve` serializes into one of two orders.  Poll first: the task
registers as a waiter (poll reports not-ready) and the subsequent resolve's
notify loop notifies it.  Resolve first: the subsequent poll observes the
value directly.  In neither order does the task wait forever. -/
theorem c9_no_lost_wakeup {T E : Type} (b : PromiseBackend T E) (t : Task)
    (v : T) (h : b.result = none) :
    ((Promise.poll b t).2 = RResult.Ok Async.NotReady ∧
      t ∈ (Promise.resolve (Promise.poll b t).1 v).2) ∧
    (Promise.poll (Promise.resolve b v).1 t).2 = RResult.Ok (Async.Ready v) := by
  refine ⟨⟨?_, ?_⟩, rfl⟩
  · simp [Promise.poll, h]
  · simp [Promise.poll, Promise.resolve, h]

/-- Witness for C9 at a concrete unsettled cell. -/
theorem c9_no_lost_wakeup_witness :
    let b : PromiseBackend Nat Nat := { result := none, waiting_tasks := [4] }
    (((Promise.poll b 7).2 = RResult.Ok Async.NotReady ∧
      7 ∈ (Promise.resolve (Promise.poll b 7).1 42).2) ∧
    (Promise.poll (Promise.resolve b 42).1 7).2 = RResult.Ok (Async.Ready 42)) :=
  c9_no_lost_wakeup { result := none, waiting_tasks := [4] } 7 42 rfl

/-- C10: polling a cell whose settled outcome was already consumed does not
panic and is indistinguishable from polling a never-settled cell: after the
consuming poll the stored result is `None`, a further poll registers the
calling task and reports not-ready exactly as a never-settled cell with the
same waiter list would, and a later second `resolve` is observed by a
subsequent poll. -/
theorem c10_poll_after_consume {T E : Type} (b : PromiseBackend T E)
    (r : RResult T E) (t1 t2 t3 : Task) (v2 : T) (h : b.result = some r) :
    (Promise.poll b t1).1.result = none ∧
    Promise.poll (Promise.poll b t1).1 t2 =
      Promise.poll { result := none, waiting_tasks := (Promise.poll b t1).1.waiting_tasks } t2 ∧
    (Promise.poll (Promise.poll b t1).1 t2).2 = RResult.Ok Async.NotReady ∧
    (Promise.poll (Promise.poll b t1).1 t2).1.waiting_tasks =
      (Promise.poll b t1).1.waiting_tasks ++ [t2] ∧
    (Promise.poll (Promise.resolve (Promise.poll (Promise.poll b t1).1 t2).1 v2).1 t3).2 =
      RResult.Ok (Async.Ready v2) := by
  refine ⟨?_, ?_, ?_, ?_, rfl⟩ <;> simp [Promise.poll, Promise.resolve, h]

/-- Witness for C10 at a concrete settled, unconsumed cell. -/
theorem c10_poll_after_consume_witness :
    let b : PromiseBackend Nat Nat := { result := some (RResult.Ok 9), waiting_tasks := [] }
    ((Promise.poll b 1).1.result = none ∧
    Promise.poll (Promise.poll b 1).1 2 =
      Promise.poll { result := none, waiting_tasks := (Promise.poll b 1).1.waiting_tasks } 2 ∧
    (Promise.poll (Promise.poll b 1).1 2).2 = RResult.Ok Async.NotReady ∧
    (Promise.poll (Promise.poll b 1).1 2).1.waiting_tasks =
      (Promise.poll b 1).1.waiting_tasks ++ [2] ∧
    (Promise.poll (Promise.resolve (Promise.poll (Promise.poll b 1).1 2).1 8).1 3).2 =
      RResult.Ok (Async.Ready 8)) :=
  c10_poll_after_consume { result := some (RResult.Ok 9), waiting_tasks := [] }
    (RResult.Ok 9) 1 2 3 8 rfl

/-! Executor theorems. -/

/-- Removing a key really removes it from the association-list map. -/
theorem lookup_removeKey {F : Type} (m : List (Nat × F)) (id : Nat) :
    (removeKey m id).lookup id = none := by
  induction m with
  | nil => rfl
  | cons p m ih =>
    rcases p with ⟨k, v⟩
    by_cases hk : k = id
    · simpa [removeKey, List.filter_cons, hk] using ih
    · have : (id == k) = false := by simp [Ne.symm hk]
      simpa [removeKey, List.filter_cons, hk, List.lookup, this] using ih

/-- Looking up a freshly inserted key yields the inserted value. -/
theorem lookup_insertKey {F : Type} (m : List (Nat × F)) (id : Nat) (f : F) :
    (insertKey m id f).lookup id = some f := by
  simp [insertKey, List.lookup]

/-- C3: when the slot for `id` is present holding `f`, `invoke(id)` removes it
from the table and polls once.  Finished successfully: the table is exactly
the removal, nothing reinserted for `id`.  Not finished: the advanced state is
reinserted under the same `id`.  Finished with failure: the table is exactly
the removal and the failure is only logged (invoke still returns a state, no
propagation). -/
theorem c3_invoke_poll_one {F : Type} (pollF : F → Poll Unit Unit × F)
    (s : ExecutorState F) (id : Nat) (f : F) (h : s.spawns.lookup id = some f) :
    ((pollF f).1 = RResult.Ok (Async.Ready ()) →
      (GtkEventLoopAsyncExecutor.invoke pollF s id).1.spawns = removeKey s.spawns id ∧
      (GtkEventLoopAsyncExecutor.invoke pollF s id).1.spawns.lookup id = none ∧
      (GtkEventLoopAsyncExecutor.invoke pollF s id).2 = LogEvent.noLog) ∧
    ((pollF f).1 = RResult.Ok Async.NotReady →
      (GtkEventLoopAsyncExecutor.invoke pollF s id).1.spawns =
        insertKey (removeKey s.spawns id) id (pollF f).2 ∧
      (GtkEventLoopAsyncExecutor.invoke pollF s id).1.spawns.lookup id = some (pollF f).2 ∧
      (GtkEventLoopAsyncExecutor.invoke pollF s id).2 = LogEvent.noLog) ∧
    (∀ e, (pollF f).1 = RResult.Err e →
      (GtkEventLoopAsyncExecutor.invoke pollF s id).1.spawns = removeKey s.spawns id ∧
      (GtkEventLoopAsyncExecutor.invoke pollF s id).1.spawns.lookup id = none ∧
      (GtkEventLoopAsyncExecutor.invoke pollF s id).2 = LogEvent.futureError id) := by
  rcases hpf : pollF f with ⟨r, f2⟩
  refine ⟨?_, ?_, ?_⟩
  · intro hr
    simp only [hpf] at hr
    subst hr
    simp [GtkEventLoopAsyncExecutor.invoke, h, hpf, lookup_removeKey]
  · intro hr
    simp only [hpf] at hr
    subst hr
    simp [GtkEventLoopAsyncExecutor.invoke, h, hpf, lookup_insertKey]
  · intro e hr
    simp only [hpf] at hr
    subst hr
    simp [GtkEventLoopAsyncExecutor.invoke, h, hpf, lookup_removeKey]

/-- Witness for C3 at a concrete one-entry table, with a poll function that
reports not-ready and advances the state from 10 to 11. -/
theorem c3_invoke_poll_one_witness :
    let pollF : Nat → Poll Unit Unit × Nat := fun n => (RResult.Ok Async.NotReady, n + 1)
    let s : ExecutorState Nat := { next_id := 1, spawns := [(0, 10)], idle_queue := [] }
    (((pollF 10).1 = RResult.Ok (Async.Ready ()) →
      (GtkEventLoopAsyncExecutor.invoke pollF s 0).1.spawns = removeKey s.spawns 0 ∧
      (GtkEventLoopAsyncExecutor.invoke pollF s 0).1.spawns.lookup 0 = none ∧
      (GtkEventLoopAsyncExecutor.invoke pollF s 0).2 = LogEvent.noLog) ∧
    ((pollF 10).1 = RResult.Ok Async.NotReady →
      (GtkEventLoopAsyncExecutor.invoke pollF s 0).1.spawns =
        insertKey (removeKey s.spawns 0) 0 (pollF 10).2 ∧
      (GtkEventLoopAsyncExecutor.invoke pollF s 0).1.spawns.lookup 0 = some (pollF 10).2 ∧
      (GtkEventLoopAsyncExecutor.invoke pollF s 0).2 = LogEvent.noLog) ∧
    (∀ e, (pollF 10).1 = RResult.Err e →
      (GtkEventLoopAsyncExecutor.invoke pollF s 0).1.spawns = removeKey s.spawns 0 ∧
      (GtkEventLoopAsyncExecutor.invoke pollF s 0).1.spawns.lookup 0 = none ∧
      (GtkEventLoopAsyncExecutor.invoke pollF s 0).2 = LogEvent.futureError 0)) :=
  c3_invoke_poll_one (fun n => (RResult.Ok Async.NotReady, n + 1))
    { next_id := 1, spawns := [(0, 10)], idle_queue := [] } 0 10 rfl

/-- C6: a notification for an id not present in the task table leaves the
entire state unchanged and only emits the stale-notification log line. -/
theorem c6_invoke_stale_notification {F : Type} (pollF : F → Poll Unit Unit × F)
    (s : ExecutorState F) (id : Nat) (h : s.spawns.lookup id = none) :
    GtkEventLoopAsyncExecutor.invoke pollF s id = (s, LogEvent.nonExistingSpawn id) := by
  simp [GtkEventLoopAsyncExecutor.invoke, h]

/-- Witness for C6: invoking id 5 on a table that only holds id 0. -/
theorem c6_invoke_stale_notification_witness :
    let pollF : Nat → Poll Unit Unit × Nat := fun n => (RResult.Ok Async.NotReady, n)
    let s : ExecutorState Nat := { next_id := 1, spawns := [(0, 10)], idle_queue := [2] }
    GtkEventLoopAsyncExecutor.invoke pollF s 5 = (s, LogEvent.nonExistingSpawn 5) :=
  c6_invoke_stale_notification (fun n => (RResult.Ok Async.NotReady, n))
    { next_id := 1, spawns := [(0, 10)], idle_queue := [2] } 5 rfl

/-- C5 counterexample: the claim that submission "performs an initial poll of
that task before yielding control back to the submitter" fails on the code.
Spawning an immediately-ready future leaves its slot still in the table when
`spawn` returns — had the initial poll been performed before returning,
`invoke` would have discarded the slot (third conjunct).  `spawn` only
schedules the initial poll: the idle queue now holds the new handle. -/
theorem c5_spawn_initial_poll_cex :
    let readyPoll : Unit → Poll Unit Unit × Unit :=
      fun u => (RResult.Ok (Async.Ready ()), u)
    let s0 : ExecutorState Unit := { next_id := 0, spawns := [], idle_queue := [] }
    let p := GtkEventLoopAsyncExecutor.spawn s0 ()
    p.1.spawns.lookup p.2 = some () ∧
    p.1.idle_queue = [p.2] ∧
    (GtkEventLoopAsyncExecutor.invoke readyPoll p.1 p.2).1.spawns.lookup p.2 = none := by
  exact ⟨rfl, rfl, rfl⟩

/-- C5 amended: `spawn` allocates the fresh handle `next_id` (incrementing
the counter), wraps the task, inserts it into the table, and schedules
exactly one initial poll attempt for that handle through the notification
path (one glib idle callback), without waiting for any external event; the
initial poll itself runs when the event loop later runs that callback, not
before `spawn` returns. -/
theorem c5_spawn_schedules_initial_poll {F : Type} (s : ExecutorState F) (f : F) :
    GtkEventLoopAsyncExecutor.spawn s f =
      ({ next_id := (s.next_id + 1) % usizeSize,
         spawns := insertKey s.spawns s.next_id f,
         idle_queue := s.idle_queue ++ [s.next_id] }, s.next_id) :=
  rfl

/-- C7: construction panics exactly when `gtk::is_initialized_main_thread()`
is false (not on the Gtk main thread, or Gtk not yet set up); when the
precondition holds it succeeds with the handle counter at zero and an empty
task table. -/
theorem c7_new_panics_iff (F : Type) (gtk_ready : Bool) :
    (GtkEventLoopAsyncExecutor.new F gtk_ready).isOk = gtk_ready ∧
    (GtkEventLoopAsyncExecutor.new F gtk_ready).toOption =
      (if gtk_ready then some { next_id := 0, spawns := [], idle_queue := [] } else none) := by
  cases gtk_ready <;> exact ⟨rfl, rfl⟩

/-- Congruence: mapping reduction mod `W` over `range'` depends only on the
start value mod `W`. -/
theorem map_mod_range'_congr (W : Nat) :
    ∀ (len a b : Nat), a % W = b % W →
      (List.range' a len).map (fun k => k % W) =
        (List.range' b len).map (fun k => k % W) := by
  intro len
  induction len with
  | zero => intro a b _; rfl
  | succ n ih =>
    intro a b h
    rw [List.range'_succ, List.range'_succ, List.map_cons, List.map_cons, h,
      ih (a + 1) (b + 1) (by rw [Nat.add_mod, h, ← Nat.add_mod])]

/-- Handles assigned by consecutive submissions through the shared backend
are the counter values from `next_id` on, wrapped modulo `usizeSize` by
`fetch_add`. -/
theorem spawnAll_ids {F : Type} (fs : List F) (s : ExecutorState F)
    (h : s.next_id < usizeSize) :
    (GtkEventLoopAsyncExecutor.spawnAll s fs).2 =
      (List.range' s.next_id fs.length).map (fun k => k % usizeSize) := by
  induction fs generalizing s with
  | nil => rfl
  | cons f fs ih =>
    have hW : 0 < usizeSize := Nat.lt_of_le_of_lt (Nat.zero_le _) h
    have hmod : (s.next_id + 1) % usizeSize < usizeSize := Nat.mod_lt _ hW
    have hih := ih { s with next_id := (s.next_id + 1) % usizeSize,
                            spawns := insertKey s.spawns s.next_id f,
                            idle_queue := s.idle_queue ++ [s.next_id] } hmod
    simp only [GtkEventLoopAsyncExecutor.spawnAll, GtkEventLoopAsyncExecutor.spawn,
      GtkEventLoopAsyncExecutor.notify, List.length_cons, List.range'_succ, List.map_cons]
    rw [hih, map_mod_range'_congr usizeSize fs.length ((s.next_id + 1) % usizeSize)
      (s.next_id + 1) (by simp), Nat.mod_eq_of_lt h]

/-- C8 counterexample: the claim that over every submission sequence the
assigned handles are monotonically increasing and pairwise distinct fails on
the code, because `AtomicUsize::fetch_add` wraps on overflow: starting from a
fresh backend, `usizeSize + 1` submissions assign the handle 0 twice (first
and last), so the handle list is neither sorted by `<` nor duplicate-free. -/
theorem c8_handles_monotone_distinct_cex :
    ¬ ((((GtkEventLoopAsyncExecutor.spawnAll
            { next_id := 0, spawns := [], idle_queue := [] }
            (List.replicate (usizeSize + 1) (() : Unit))).2).Pairwise (· < ·)) ∧
       (((GtkEventLoopAsyncExecutor.spawnAll
            { next_id := 0, spawns := [], idle_queue := [] }
            (List.replicate (usizeSize + 1) (() : Unit))).2).Nodup)) := by
  intro hc
  have hW : (0 : Nat) < usizeSize := by norm_num [usizeSize]
  have hids := spawnAll_ids (List.replicate (usizeSize + 1) (() : Unit))
    { next_id := 0, spawns := [], idle_queue := [] } hW
  have hp := hc.1
  rw [hids, List.length_replicate] at hp
  have hproj : ({ next_id := 0, spawns := [], idle_queue := [] } : ExecutorState Unit).next_id
      = 0 := rfl
  rw [hproj] at hp
  have hlen : ((List.range' 0 (usizeSize + 1)).map (fun k => k % usizeSize)).length
      = usizeSize + 1 := by
    rw [List.length_map, List.length_range']
  have h1 : 0 < ((List.range' 0 (usizeSize + 1)).map (fun k => k % usizeSize)).length := by
    rw [hlen]
    exact Nat.succ_pos _
  have h2 : usizeSize <
      ((List.range' 0 (usizeSize + 1)).map (fun k => k % usizeSize)).length := by
    rw [hlen]
    exact Nat.lt_succ_self _
  have hkey := List.pairwise_iff_get.mp hp ⟨0, h1⟩ ⟨usizeSize, h2⟩ hW
  have e1 : ((List.range' 0 (usizeSize + 1)).map (fun k => k % usizeSize)).get ⟨0, h1⟩
      = 0 % usizeSize := by
    rw [List.get_eq_getElem, List.getElem_map, List.getElem_range'_1]
    rfl
  have e2 : ((List.range' 0 (usizeSize + 1)).map (fun k => k % usizeSize)).get
      ⟨usizeSize, h2⟩ = (0 + usizeSize) % usizeSize := by
    rw [List.get_eq_getElem, List.getElem_map, List.getElem_range'_1]
  rw [e1, e2, Nat.zero_mod, Nat.zero_add, Nat.mod_self] at hkey
  exact absurd hkey (lt_irrefl 0)

/-- C8 amended: over any sequence of submissions to one executor backend
(shared by all clones) during which the handle counter does not overflow
`usize` — that is, `next_id` plus the number of submissions stays within
`usizeSize`, which holds for any physically realizable workload from a fresh
backend — the assigned handles are strictly increasing in submission order
and pairwise distinct. -/
theorem c8_handles_monotone_distinct {F : Type} (s : ExecutorState F) (fs : List F)
    (h : s.next_id + fs.length ≤ usizeSize) :
    ((GtkEventLoopAsyncExecutor.spawnAll s fs).2).Pairwise (· < ·) ∧
    ((GtkEventLoopAsyncExecutor.spawnAll s fs).2).Nodup := by
  rcases fs with _ | ⟨f, fs⟩
  · exact ⟨List.Pairwise.nil, List.nodup_nil⟩
  · have hlt : s.next_id < usizeSize := by
      simp only [List.length_cons] at h
      omega
    rw [spawnAll_ids _ _ hlt]
    have hmap : (List.range' s.next_id (f :: fs).length).map (fun k => k % usizeSize) =
        List.range' s.next_id (f :: fs).length := by
      conv_rhs => rw [← List.map_id (List.range' s.next_id (f :: fs).length)]
      refine List.map_congr_left ?_
      intro x hx
      have hx2 := List.mem_range'_1.mp hx
      exact Nat.mod_eq_of_lt (by omega)
    rw [hmap]
    exact ⟨List.pairwise_lt_range' _ _, List.nodup_range' _ _⟩

/-- Witness for C8 at a fresh backend and two submissions: handles [0, 1]. -/
theorem c8_handles_monotone_distinct_witness :
    (({ next_id := 0, spawns := [], idle_queue := [] } : ExecutorState Unit).next_id +
        ([(), ()] : List Unit).length ≤ usizeSize) ∧
    (((GtkEventLoopAsyncExecutor.spawnAll
        { next_id := 0, spawns := [], idle_queue := [] } [(), ()]).2).Pairwise (· < ·) ∧
     ((GtkEventLoopAsyncExecutor.spawnAll
        { next_id := 0, spawns := [], idle_queue := [] } [(), ()]).2).Nodup) :=
  ⟨by norm_num [usizeSize],
   c8_handles_monotone_distinct { next_id := 0, spawns := [], idle_queue := [] } [(), ()]
     (by norm_num [usizeSize])⟩

end GtkFutureExecutor
